import Mathlib

/-!
# Verification of btleplug's WinRT peripheral aggregator and adapter manager

A shallow embedding of `src/winrtble/peripheral.rs` and
`src/api/adapter_manager.rs` from the btleplug BLE library, together with
proofs about advertisement-report merging, event emission, and the
registry's peripheral table.

Modelling conventions:
- 128-bit UUIDs and 6-byte device addresses are `Nat`.
- Rust `HashMap`s are association lists (`List (Nat × V)`) with
  insert-replacing semantics (`insertKey`); `HashSet<Uuid>` is `Finset Nat`.
- The `AtomicU32` discovery counter wraps modulo `2 ^ 32`, as `fetch_add`
  does on `u32`.
- Fallible WinRT getters (`Result<T>`) become `Option`; `none` models the
  getter returning `Err`, i.e. the report not carrying that field.
- `emit` calls made while merging a report are collected into the returned
  event list, in emission order.
-/

namespace Btleplug

/-- Wire type tag for a raw advertisement data section.
Modelled from the spec: the `advertisement_data_type` constants module is
not part of the provided sources; the spec describes three service-data
wire types (16/32/128-bit UUID-prefixed). Values follow the BLE assigned
numbers. -/
def SERVICE_DATA_16_BIT_UUID : Nat := 0x16

/-- Modelled from the spec: 32-bit-UUID-prefixed service data wire type. -/
def SERVICE_DATA_32_BIT_UUID : Nat := 0x20

/-- Modelled from the spec: 128-bit-UUID-prefixed service data wire type. -/
def SERVICE_DATA_128_BIT_UUID : Nat := 0x21

/-- Modelled from the spec: `bleuuid::uuid_from_u16` expands a 16-bit
UUID-derived value to the canonical 128-bit Bluetooth base UUID form
`0000xxxx-0000-1000-8000-00805f9b34fb`. -/
def uuid_from_u16 (v : Nat) : Nat :=
  (v % 2 ^ 16) * 2 ^ 96 + 0x00001000800000805f9b34fb

/-- Modelled from the spec: `bleuuid::uuid_from_u32`, 32-bit analogue of
`uuid_from_u16`. -/
def uuid_from_u32 (v : Nat) : Nat :=
  (v % 2 ^ 32) * 2 ^ 96 + 0x00001000800000805f9b34fb

/-- Little-endian byte list to natural number (`u16::from_le_bytes` /
`u32::from_le_bytes` on the exact-length prefix). -/
def fromLeBytes (bs : List Nat) : Nat :=
  bs.foldr (fun b acc => b % 256 + 256 * acc) 0

/-- Big-endian 16-byte slice to a 128-bit UUID value (`Uuid::from_slice`). -/
def uuidFromBeBytes (bs : List Nat) : Nat :=
  bs.foldl (fun acc b => acc * 256 + b % 256) 0

/-- Rust `as i8` cast on an `i16` signal-strength reading. -/
def i8cast (v : Int) : Int := (v + 128) % 256 - 128

/-! ## Association-list maps (embedding of `HashMap` / `DashMap`) -/

/-- First-match lookup in an association list keyed by `Nat`. -/
def lookupKey {V : Type} : List (Nat × V) → Nat → Option V
  | [], _ => none
  | (k', v) :: rest, k => if k' = k then some v else lookupKey rest k

/-- `HashMap::contains_key`. -/
def containsKey {V : Type} (m : List (Nat × V)) (k : Nat) : Bool :=
  (lookupKey m k).isSome

/-- `HashMap::insert`: replace the binding for `k` if present, else append. -/
def insertKey {V : Type} : List (Nat × V) → Nat → V → List (Nat × V)
  | [], k, v => [(k, v)]
  | (k', v') :: rest, k, v =>
      if k' = k then (k, v) :: rest else (k', v') :: insertKey rest k v

/-- `DashMap::remove`: drop every binding for `k`. -/
def removeKey {V : Type} (m : List (Nat × V)) (k : Nat) : List (Nat × V) :=
  m.filter (fun kv => decide (kv.1 ≠ k))

/-- `Iterator::collect::<HashMap<_,_>>()`: later duplicates overwrite. -/
def collectMap (entries : List (Nat × List Nat)) : List (Nat × List Nat) :=
  entries.foldl (fun acc d => insertKey acc d.1 d.2) []

/-! ## Events and advertisement reports -/

/-- `CentralEvent` (the services payload is kept as the set it is collected
from, since `HashSet` iteration order is unspecified). -/
inductive CentralEvent where
  | DeviceDiscovered (address : Nat)
  | DeviceUpdated (address : Nat)
  | DeviceConnected (address : Nat)
  | DeviceDisconnected (address : Nat)
  | DeviceLost (address : Nat)
  | ManufacturerDataAdvertisement (address : Nat)
      (manufacturer_data : List (Nat × List Nat))
  | ServiceDataAdvertisement (address : Nat)
      (service_data : List (Nat × List Nat))
  | ServicesAdvertisement (address : Nat) (services : Finset Nat)
deriving DecidableEq

/-- One raw advertisement data section (`BluetoothLEAdvertisementDataSection`):
a wire type tag plus raw bytes. -/
structure DataSection where
  dataType : Nat
  data : List Nat
deriving DecidableEq

/-- The inputs `update_properties` reads from
`BluetoothLEAdvertisementReceivedEventArgs` and its `Advertisement()`.
Each `Option` is `none` when the corresponding WinRT getter returns `Err`
(the report does not carry that field). -/
structure AdvertisementReport where
  localName : Option String
  manufacturerData : Option (List (Nat × List Nat))
  dataSections : Option (List DataSection)
  serviceUuids : Option (List Nat)
  rawSignalStrengthInDBm : Option Int
deriving DecidableEq

/-- A report none of whose getters succeed. -/
def emptyReport : AdvertisementReport :=
  { localName := none, manufacturerData := none, dataSections := none,
    serviceUuids := none, rawSignalStrengthInDBm := none }

/-! ## Peripheral state (`struct Shared` of `winrtble/peripheral.rs`) -/

/-- Platform characteristic handle (`BLECharacteristic`); only its cached
identity matters to the dispatch logic in the provided sources. -/
structure BLECharacteristic where
  uuid : Nat
deriving DecidableEq

/-- The mutable state behind a WinRT `Peripheral` (`struct Shared`). -/
structure Shared where
  address : Nat
  connected : Bool
  device : Option Unit
  ble_characteristics : List (Nat × BLECharacteristic)
  local_name : Option String
  last_tx_power_level : Option Int
  latest_manufacturer_data : List (Nat × List Nat)
  latest_service_data : List (Nat × List Nat)
  services : Finset Nat
  discovery_count : Nat

namespace Peripheral

/-- `Peripheral::new`. -/
def new (address : Nat) : Shared :=
  { address := address, connected := false, device := none,
    ble_characteristics := [], local_name := none,
    last_tx_power_level := none, latest_manufacturer_data := [],
    latest_service_data := [], services := ∅, discovery_count := 0 }

end Peripheral

/-! ### The category-by-category body of `update_properties` -/

/-- `discovery_count.fetch_add(1)` on a `u32`. -/
def stepCount (s : Shared) : Shared :=
  { s with discovery_count := (s.discovery_count + 1) % 2 ^ 32 }

/-- The `LocalName()` block: replace only when `Ok` and non-empty. -/
def stepLocalName (s : Shared) (args : AdvertisementReport) : Shared :=
  match args.localName with
  | some name => if name ≠ "" then { s with local_name := some name } else s
  | none => s

/-- The `ManufacturerData()` block: when `Ok`, replace the stored map
wholesale with the report's entries and emit a
`ManufacturerDataAdvertisement` carrying the new map. -/
def stepMfg (s : Shared) (args : AdvertisementReport) :
    Shared × List CentralEvent :=
  match args.manufacturerData with
  | some entries =>
      let m := collectMap entries
      ({ s with latest_manufacturer_data := m },
       [CentralEvent.ManufacturerDataAdvertisement s.address m])
  | none => (s, [])

/-- Is this section one of the three service-data wire types? -/
def isServiceDataType (t : Nat) : Bool :=
  t = SERVICE_DATA_16_BIT_UUID || t = SERVICE_DATA_32_BIT_UUID ||
    t = SERVICE_DATA_128_BIT_UUID

/-- Decode one data section: split the UUID prefix at 2/4/16 bytes,
expand it to 128-bit form, keep the remainder as the service payload;
other wire types are dropped (`filter_map` returning `None`). -/
def decodeServiceDataSection (d : DataSection) : Option (Nat × List Nat) :=
  if d.dataType = SERVICE_DATA_16_BIT_UUID then
    some (uuid_from_u16 (fromLeBytes (d.data.take 2)), d.data.drop 2)
  else if d.dataType = SERVICE_DATA_32_BIT_UUID then
    some (uuid_from_u32 (fromLeBytes (d.data.take 4)), d.data.drop 4)
  else if d.dataType = SERVICE_DATA_128_BIT_UUID then
    some (uuidFromBeBytes (d.data.take 16), d.data.drop 16)
  else none

/-- The `DataSections()` block: when `Ok` and some section carries service
data, replace the stored service-data map wholesale with the decoded
sections and emit a `ServiceDataAdvertisement`. -/
def stepServiceData (s : Shared) (args : AdvertisementReport) :
    Shared × List CentralEvent :=
  match args.dataSections with
  | some sections =>
      if sections.any (fun d => isServiceDataType d.dataType) then
        let sd := collectMap (sections.filterMap decodeServiceDataSection)
        ({ s with latest_service_data := sd },
         [CentralEvent.ServiceDataAdvertisement s.address sd])
      else (s, [])
  | none => (s, [])

/-- The `ServiceUuids()` block: a read-only pass first checks whether any
advertised UUID is new; only then is the stored set unioned with the
incoming list and a `ServicesAdvertisement` emitted with the union. -/
def stepServices (s : Shared) (args : AdvertisementReport) :
    Shared × List CentralEvent :=
  match args.serviceUuids with
  | some uuids =>
      if uuids.any (fun u => decide (u ∉ s.services)) then
        let svcs := uuids.foldl (fun acc u => insert u acc) s.services
        ({ s with services := svcs },
         [CentralEvent.ServicesAdvertisement s.address svcs])
      else (s, [])
  | none => (s, [])

/-- The trailing `RawSignalStrengthInDBm()` assignment: the stored
`last_tx_power_level` is unconditionally overwritten with
`args.RawSignalStrengthInDBm().ok().map(|rssi| rssi as i8)`. -/
def stepTx (s : Shared) (args : AdvertisementReport) : Shared :=
  { s with last_tx_power_level := args.rawSignalStrengthInDBm.map i8cast }

/-- `Peripheral::update_properties`: merge one advertisement report,
returning the new state and the events emitted, in order. -/
def updateProperties (s : Shared) (args : AdvertisementReport) :
    Shared × List CentralEvent :=
  let s1 := stepLocalName (stepCount s) args
  let r1 := stepMfg s1 args
  let r2 := stepServiceData r1.1 args
  let r3 := stepServices r2.1 args
  (stepTx r3.1 args, r1.2 ++ r2.2 ++ r3.2)

/-- The state after one report (events discarded). -/
def applyReport (s : Shared) (args : AdvertisementReport) : Shared :=
  (updateProperties s args).1

/-- The state after a sequence of reports. -/
def applyReports (s : Shared) (rs : List AdvertisementReport) : Shared :=
  rs.foldl applyReport s

/-! ### Derived property snapshot and the query surface -/

/-- `AddressType` (`api`): public or random device address. -/
inductive AddressType where
  | Public
  | Random
deriving DecidableEq

/-- `PeripheralProperties` (the `services` vector is kept as the set it is
collected from, since `HashSet` iteration order is unspecified). -/
structure PeripheralProperties where
  address : Nat
  address_type : Option AddressType
  local_name : Option String
  tx_power_level : Option Int
  manufacturer_data : List (Nat × List Nat)
  service_data : List (Nat × List Nat)
  services : Finset Nat
  discovery_count : Nat

namespace Peripheral

/-- `Peripheral::address_type`: the WinRT backend never supplies an address
type; the method body is literally `None`. -/
def address_type (_ : Shared) : Option AddressType := none

/-- `Peripheral::derive_properties_compat`. -/
def derive_properties_compat (s : Shared) : PeripheralProperties :=
  { address := s.address, address_type := address_type s,
    local_name := s.local_name, tx_power_level := s.last_tx_power_level,
    manufacturer_data := s.latest_manufacturer_data,
    service_data := s.latest_service_data, services := s.services,
    discovery_count := s.discovery_count }

end Peripheral

/-! ### GATT operation dispatch -/

/-- The errors this layer itself produces (`Error::NotConnected`,
`Error::NotSupported(op)`). -/
inductive BtleError where
  | NotConnected
  | NotSupported (op : String)
deriving DecidableEq

/-- Where a GATT call ends up: forwarded to the platform handle's own
asynchronous operation, or failed immediately by this layer. -/
inductive GattDispatch where
  | transport
  | failure (e : BtleError)
deriving DecidableEq

namespace Peripheral

/-- `Peripheral::write`: dispatch on whether the characteristic UUID is in
the cache; the connection state is not consulted. -/
def write (s : Shared) (uuid : Nat) : GattDispatch :=
  match lookupKey s.ble_characteristics uuid with
  | some _ => GattDispatch.transport
  | none => GattDispatch.failure (BtleError.NotSupported "write")

/-- `Peripheral::read`. -/
def read (s : Shared) (uuid : Nat) : GattDispatch :=
  match lookupKey s.ble_characteristics uuid with
  | some _ => GattDispatch.transport
  | none => GattDispatch.failure (BtleError.NotSupported "read")

/-- `Peripheral::subscribe`. -/
def subscribe (s : Shared) (uuid : Nat) : GattDispatch :=
  match lookupKey s.ble_characteristics uuid with
  | some _ => GattDispatch.transport
  | none => GattDispatch.failure (BtleError.NotSupported "subscribe")

/-- `Peripheral::unsubscribe`. -/
def unsubscribe (s : Shared) (uuid : Nat) : GattDispatch :=
  match lookupKey s.ble_characteristics uuid with
  | some _ => GattDispatch.transport
  | none => GattDispatch.failure (BtleError.NotSupported "unsubscribe")

/-- `Peripheral::discover_characteristics`: requires the device handle. -/
def discover_characteristics (s : Shared) : GattDispatch :=
  match s.device with
  | some _ => GattDispatch.transport
  | none => GattDispatch.failure BtleError.NotConnected

end Peripheral

/-! ## The central registry (`api/adapter_manager.rs`) -/

/-- `AdapterManager`: the address-keyed peripheral table, the single
ordered mpsc sink (its queue of sent events, plus whether the receiving
end is still held by the manager), generic over the peripheral type. -/
structure AdapterManager (P : Type) where
  peripherals : List (Nat × P)
  eventQueue : List CentralEvent
  eventReceiverPresent : Bool

namespace AdapterManager

/-- `AdapterManager::default()`: empty table, fresh channel whose receiver
is still available. -/
def new (P : Type) : AdapterManager P :=
  { peripherals := [], eventQueue := [], eventReceiverPresent := true }

/-- `AdapterManager::emit`: `DeviceDisconnected` and `DeviceLost` first
remove the address from the table; every event is then sent on the
single-consumer channel. -/
def emit {P : Type} (m : AdapterManager P) (event : CentralEvent) :
    AdapterManager P :=
  let m1 :=
    match event with
    | CentralEvent.DeviceDisconnected addr =>
        { m with peripherals := removeKey m.peripherals addr }
    | CentralEvent.DeviceLost addr =>
        { m with peripherals := removeKey m.peripherals addr }
    | _ => m
  { m1 with eventQueue := m1.eventQueue ++ [event] }

/-- `AdapterManager::event_receiver`: `Option::take` on the stored
receiver — hands it out at most once. -/
def event_receiver {P : Type} (m : AdapterManager P) :
    Option Unit × AdapterManager P :=
  if m.eventReceiverPresent then
    (some (), { m with eventReceiverPresent := false })
  else (none, m)

/-- `AdapterManager::has_peripheral`. -/
def has_peripheral {P : Type} (m : AdapterManager P) (addr : Nat) : Bool :=
  containsKey m.peripherals addr

/-- `AdapterManager::add_peripheral`: both `assert!`s are modelled as
`none` (panic); on success the peripheral is inserted under `addr`.
`addrOf` stands for the `Peripheral::address` trait method. -/
def add_peripheral {P : Type} (addrOf : P → Nat) (m : AdapterManager P)
    (addr : Nat) (p : P) : Option (AdapterManager P) :=
  if containsKey m.peripherals addr then none
  else if addrOf p ≠ addr then none
  else some { m with peripherals := insertKey m.peripherals addr p }

/-- `AdapterManager::peripheral`. -/
def peripheral {P : Type} (m : AdapterManager P) (addr : Nat) : Option P :=
  lookupKey m.peripherals addr

end AdapterManager

/-! ## Derived notions and concrete sample inputs -/

/-- The service-UUID set carried by a report (empty when the getter fails). -/
def reportServiceSet (r : AdvertisementReport) : Finset Nat :=
  (r.serviceUuids.getD []).toFinset

/-- Recognizes `ManufacturerDataAdvertisement`. -/
def isMfgEvent : CentralEvent → Bool
  | CentralEvent.ManufacturerDataAdvertisement _ _ => true
  | _ => false

/-- Recognizes `ServiceDataAdvertisement`. -/
def isServiceDataEvent : CentralEvent → Bool
  | CentralEvent.ServiceDataAdvertisement _ _ => true
  | _ => false

/-- Recognizes `ServicesAdvertisement`. -/
def isServicesEvent : CentralEvent → Bool
  | CentralEvent.ServicesAdvertisement _ _ => true
  | _ => false

/-- Recognizes the two event variants on which `emit` prunes the table. -/
def isRemovalEvent : CentralEvent → Bool
  | CentralEvent.DeviceDisconnected _ => true
  | CentralEvent.DeviceLost _ => true
  | _ => false

/-- A report carrying only manufacturer data. -/
def mfgReport : AdvertisementReport :=
  { emptyReport with manufacturerData := some [(1, [2, 3])] }

/-- A report carrying only a signal-strength reading. -/
def txReport : AdvertisementReport :=
  { emptyReport with rawSignalStrengthInDBm := some (-60) }

/-- A report carrying only the service UUIDs 1 and 2. -/
def svcReportA : AdvertisementReport :=
  { emptyReport with serviceUuids := some [1, 2] }

/-- A report carrying only the service UUIDs 2 and 3. -/
def svcReportB : AdvertisementReport :=
  { emptyReport with serviceUuids := some [2, 3] }

/-- A registry over `Nat` peripherals holding one entry at address 3. -/
def sampleMgr : AdapterManager Nat :=
  { peripherals := [(3, 3)], eventQueue := [], eventReceiverPresent := true }

/-! ## Helper lemmas: association-list maps -/

lemma lookupKey_removeKey {V : Type} (m : List (Nat × V)) (k : Nat) :
    lookupKey (removeKey m k) k = none := by
  induction m with
  | nil => rfl
  | cons kv rest ih =>
      rcases kv with ⟨k1, v1⟩
      by_cases h : k1 = k
      · simpa [removeKey, List.filter_cons, h] using ih
      · simpa [removeKey, List.filter_cons, h, lookupKey] using ih

lemma lookupKey_insertKey_self {V : Type} (m : List (Nat × V)) (k : Nat)
    (v : V) : lookupKey (insertKey m k v) k = some v := by
  induction m with
  | nil => simp [insertKey, lookupKey]
  | cons kv rest ih =>
      rcases kv with ⟨k1, v1⟩
      by_cases h : k1 = k
      · simp [insertKey, h, lookupKey]
      · simpa [insertKey, h, lookupKey] using ih

lemma lookupKey_insertKey_ne {V : Type} (m : List (Nat × V)) (k a : Nat)
    (v : V) (hak : a ≠ k) :
    lookupKey (insertKey m k v) a = lookupKey m a := by
  have hka : ¬ k = a := fun h => hak h.symm
  induction m with
  | nil => simp [insertKey, lookupKey, hka]
  | cons kv rest ih =>
      rcases kv with ⟨k1, v1⟩
      by_cases h : k1 = k
      · simp [insertKey, h, lookupKey, hka]
      · simp [insertKey, h, lookupKey, ih]

/-! ## Helper lemmas: frame conditions of the per-category steps -/

section StepLemmas

variable (s : Shared) (args : AdvertisementReport)

@[simp] lemma stepCount_services : (stepCount s).services = s.services := rfl

@[simp] lemma stepCount_address : (stepCount s).address = s.address := rfl

@[simp] lemma stepCount_mfg :
    (stepCount s).latest_manufacturer_data = s.latest_manufacturer_data := rfl

@[simp] lemma stepCount_count :
    (stepCount s).discovery_count = (s.discovery_count + 1) % 2 ^ 32 := rfl

@[simp] lemma stepLocalName_services :
    (stepLocalName s args).services = s.services := by
  rcases args with ⟨ln, md, ds, su, rssi⟩
  rcases ln with _ | name
  · rfl
  · by_cases h : name ≠ "" <;> simp [stepLocalName, h]

@[simp] lemma stepLocalName_address :
    (stepLocalName s args).address = s.address := by
  rcases args with ⟨ln, md, ds, su, rssi⟩
  rcases ln with _ | name
  · rfl
  · by_cases h : name ≠ "" <;> simp [stepLocalName, h]

@[simp] lemma stepLocalName_mfg :
    (stepLocalName s args).latest_manufacturer_data
      = s.latest_manufacturer_data := by
  rcases args with ⟨ln, md, ds, su, rssi⟩
  rcases ln with _ | name
  · rfl
  · by_cases h : name ≠ "" <;> simp [stepLocalName, h]

@[simp] lemma stepLocalName_count :
    (stepLocalName s args).discovery_count = s.discovery_count := by
  rcases args with ⟨ln, md, ds, su, rssi⟩
  rcases ln with _ | name
  · rfl
  · by_cases h : name ≠ "" <;> simp [stepLocalName, h]

@[simp] lemma stepMfg_services :
    (stepMfg s args).1.services = s.services := by
  rcases args with ⟨ln, md, ds, su, rssi⟩
  rcases md with _ | entries <;> rfl

@[simp] lemma stepMfg_address :
    (stepMfg s args).1.address = s.address := by
  rcases args with ⟨ln, md, ds, su, rssi⟩
  rcases md with _ | entries <;> rfl

@[simp] lemma stepMfg_count :
    (stepMfg s args).1.discovery_count = s.discovery_count := by
  rcases args with ⟨ln, md, ds, su, rssi⟩
  rcases md with _ | entries <;> rfl

lemma stepMfg_mfg_none (h : args.manufacturerData = none) :
    (stepMfg s args).1.latest_manufacturer_data
      = s.latest_manufacturer_data := by
  unfold stepMfg
  rw [h]

lemma stepMfg_mfg_some (entries : List (Nat × List Nat))
    (h : args.manufacturerData = some entries) :
    (stepMfg s args).1.latest_manufacturer_data = collectMap entries := by
  unfold stepMfg
  rw [h]

@[simp] lemma stepServiceData_services :
    (stepServiceData s args).1.services = s.services := by
  rcases args with ⟨ln, md, ds, su, rssi⟩
  rcases ds with _ | sections
  · rfl
  · by_cases h : (sections.any fun d => isServiceDataType d.dataType) = true <;>
      simp [stepServiceData, h]

@[simp] lemma stepServiceData_address :
    (stepServiceData s args).1.address = s.address := by
  rcases args with ⟨ln, md, ds, su, rssi⟩
  rcases ds with _ | sections
  · rfl
  · by_cases h : (sections.any fun d => isServiceDataType d.dataType) = true <;>
      simp [stepServiceData, h]

@[simp] lemma stepServiceData_mfg :
    (stepServiceData s args).1.latest_manufacturer_data
      = s.latest_manufacturer_data := by
  rcases args with ⟨ln, md, ds, su, rssi⟩
  rcases ds with _ | sections
  · rfl
  · by_cases h : (sections.any fun d => isServiceDataType d.dataType) = true <;>
      simp [stepServiceData, h]

@[simp] lemma stepServiceData_count :
    (stepServiceData s args).1.discovery_count = s.discovery_count := by
  rcases args with ⟨ln, md, ds, su, rssi⟩
  rcases ds with _ | sections
  · rfl
  · by_cases h : (sections.any fun d => isServiceDataType d.dataType) = true <;>
      simp [stepServiceData, h]

@[simp] lemma stepServices_mfg :
    (stepServices s args).1.latest_manufacturer_data
      = s.latest_manufacturer_data := by
  rcases args with ⟨ln, md, ds, su, rssi⟩
  rcases su with _ | uuids
  · rfl
  · by_cases h : ∃ x ∈ uuids, x ∉ s.services <;> simp [stepServices, h]

@[simp] lemma stepServices_count :
    (stepServices s args).1.discovery_count = s.discovery_count := by
  rcases args with ⟨ln, md, ds, su, rssi⟩
  rcases su with _ | uuids
  · rfl
  · by_cases h : ∃ x ∈ uuids, x ∉ s.services <;> simp [stepServices, h]

@[simp] lemma stepTx_services : (stepTx s args).services = s.services := rfl

@[simp] lemma stepTx_mfg :
    (stepTx s args).latest_manufacturer_data
      = s.latest_manufacturer_data := rfl

@[simp] lemma stepTx_count :
    (stepTx s args).discovery_count = s.discovery_count := rfl

@[simp] lemma stepTx_tx :
    (stepTx s args).last_tx_power_level
      = args.rawSignalStrengthInDBm.map i8cast := rfl

end StepLemmas

/-! ## Helper lemmas: the services union -/

lemma foldl_insert_eq_union (l : List Nat) :
    ∀ t : Finset Nat,
      l.foldl (fun acc u => insert u acc) t = t ∪ l.toFinset := by
  induction l with
  | nil => intro t; simp
  | cons u us ih =>
      intro t
      simp [List.foldl_cons, ih, List.toFinset_cons, Finset.insert_union,
        Finset.union_insert]

lemma stepServices_services (s : Shared) (args : AdvertisementReport) :
    (stepServices s args).1.services = s.services ∪ reportServiceSet args := by
  rcases args with ⟨ln, md, ds, su, rssi⟩
  rcases su with _ | uuids
  · simp [stepServices, reportServiceSet]
  · by_cases hn : ∃ x ∈ uuids, x ∉ s.services
    · simp [stepServices, reportServiceSet, hn, foldl_insert_eq_union]
    · have hall : ∀ u ∈ uuids, u ∈ s.services := by
        intro u hu
        by_contra hmem
        exact hn ⟨u, hu, hmem⟩
      have hsub : uuids.toFinset ⊆ s.services := by
        intro u hu
        exact hall u (List.mem_toFinset.mp hu)
      simp [stepServices, reportServiceSet, hn,
        Finset.union_eq_left.mpr hsub]

lemma applyReport_services (s : Shared) (r : AdvertisementReport) :
    (applyReport s r).services = s.services ∪ reportServiceSet r := by
  unfold applyReport updateProperties
  simp [stepServices_services]

lemma applyReports_services (rs : List AdvertisementReport) :
    ∀ s : Shared,
      (applyReports s rs).services
        = s.services ∪ (rs.map reportServiceSet).foldr (· ∪ ·) ∅ := by
  induction rs with
  | nil => intro s; simp [applyReports]
  | cons r rs ih =>
      intro s
      have : applyReports s (r :: rs) = applyReports (applyReport s r) rs := rfl
      rw [this, ih, applyReport_services, Finset.union_assoc]
      simp

lemma foldr_union_perm {l1 l2 : List (Finset Nat)} (h : l1.Perm l2) :
    l1.foldr (· ∪ ·) ∅ = l2.foldr (· ∪ ·) ∅ := by
  induction h with
  | nil => rfl
  | cons x _ ih => simp [List.foldr_cons, ih]
  | swap x y l => simp [List.foldr_cons, Finset.union_left_comm]
  | trans _ _ ih1 ih2 => rw [ih1, ih2]

/-! ## Helper lemmas: the discovery counter -/

lemma applyReport_count (s : Shared) (r : AdvertisementReport) :
    (applyReport s r).discovery_count = (s.discovery_count + 1) % 2 ^ 32 := by
  unfold applyReport updateProperties
  simp

lemma applyReports_count (rs : List AdvertisementReport) :
    ∀ s : Shared, s.discovery_count < 2 ^ 32 →
      (applyReports s rs).discovery_count
        = (s.discovery_count + rs.length) % 2 ^ 32 := by
  induction rs with
  | nil =>
      intro s h
      simpa [applyReports] using (Nat.mod_eq_of_lt h).symm
  | cons r rs ih =>
      intro s _
      have hstep : applyReports s (r :: rs) = applyReports (applyReport s r) rs :=
        rfl
      have hlt : (applyReport s r).discovery_count < 2 ^ 32 := by
        rw [applyReport_count]
        exact Nat.mod_lt _ (by norm_num)
      rw [hstep, ih (applyReport s r) hlt, applyReport_count,
        Nat.mod_add_mod]
      have : s.discovery_count + 1 + rs.length
          = s.discovery_count + (r :: rs).length := by
        simp [List.length_cons]
        omega
      rw [this]

/-! ## Helper lemmas: manufacturer data and tx power -/

lemma applyReport_mfg_none (s : Shared) (r : AdvertisementReport)
    (h : r.manufacturerData = none) :
    (applyReport s r).latest_manufacturer_data
      = s.latest_manufacturer_data := by
  unfold applyReport updateProperties
  simp [stepMfg_mfg_none _ _ h]

lemma applyReport_mfg_some (s : Shared) (r : AdvertisementReport)
    (entries : List (Nat × List Nat)) (h : r.manufacturerData = some entries) :
    (applyReport s r).latest_manufacturer_data = collectMap entries := by
  unfold applyReport updateProperties
  simp [stepMfg_mfg_some _ _ _ h]

lemma applyReport_tx (s : Shared) (r : AdvertisementReport) :
    (applyReport s r).last_tx_power_level
      = r.rawSignalStrengthInDBm.map i8cast := by
  unfold applyReport updateProperties
  simp

/-! ## Helper lemmas: the emitted event list -/

lemma updateProperties_snd (s : Shared) (r : AdvertisementReport) :
    (updateProperties s r).2
      = (stepMfg (stepLocalName (stepCount s) r) r).2
        ++ (stepServiceData (stepMfg (stepLocalName (stepCount s) r) r).1 r).2
        ++ (stepServices
              (stepServiceData (stepMfg (stepLocalName (stepCount s) r) r).1
                r).1 r).2 := rfl

section EventLemmas

variable (s : Shared) (args : AdvertisementReport)

lemma stepMfg_snd_count_mfg :
    ((stepMfg s args).2).countP isMfgEvent
      = if args.manufacturerData.isSome then 1 else 0 := by
  rcases args with ⟨ln, md, ds, su, rssi⟩
  rcases md with _ | entries <;>
    simp [stepMfg, List.countP_cons, isMfgEvent]

lemma stepMfg_snd_count_sd :
    ((stepMfg s args).2).countP isServiceDataEvent = 0 := by
  rcases args with ⟨ln, md, ds, su, rssi⟩
  rcases md with _ | entries <;>
    simp [stepMfg, List.countP_cons, isServiceDataEvent]

lemma stepMfg_snd_count_svc :
    ((stepMfg s args).2).countP isServicesEvent = 0 := by
  rcases args with ⟨ln, md, ds, su, rssi⟩
  rcases md with _ | entries <;>
    simp [stepMfg, List.countP_cons, isServicesEvent]

lemma stepMfg_snd_mem : ∀ e ∈ (stepMfg s args).2, isMfgEvent e = true := by
  rcases args with ⟨ln, md, ds, su, rssi⟩
  rcases md with _ | entries <;> simp [stepMfg, isMfgEvent]

lemma stepServiceData_snd_count_sd :
    ((stepServiceData s args).2).countP isServiceDataEvent
      = if ∃ d ∈ args.dataSections.getD [], isServiceDataType d.dataType
        then 1 else 0 := by
  rcases args with ⟨ln, md, ds, su, rssi⟩
  rcases ds with _ | sections
  · simp [stepServiceData]
  · by_cases h : ∃ d ∈ sections, isServiceDataType d.dataType = true <;>
      simp [stepServiceData, h, List.countP_cons, isServiceDataEvent]

lemma stepServiceData_snd_count_mfg :
    ((stepServiceData s args).2).countP isMfgEvent = 0 := by
  rcases args with ⟨ln, md, ds, su, rssi⟩
  rcases ds with _ | sections
  · simp [stepServiceData]
  · by_cases h : ∃ d ∈ sections, isServiceDataType d.dataType = true <;>
      simp [stepServiceData, h, List.countP_cons, isMfgEvent]

lemma stepServiceData_snd_count_svc :
    ((stepServiceData s args).2).countP isServicesEvent = 0 := by
  rcases args with ⟨ln, md, ds, su, rssi⟩
  rcases ds with _ | sections
  · simp [stepServiceData]
  · by_cases h : ∃ d ∈ sections, isServiceDataType d.dataType = true <;>
      simp [stepServiceData, h, List.countP_cons, isServicesEvent]

lemma stepServiceData_snd_mem :
    ∀ e ∈ (stepServiceData s args).2, isServiceDataEvent e = true := by
  rcases args with ⟨ln, md, ds, su, rssi⟩
  rcases ds with _ | sections
  · simp [stepServiceData]
  · by_cases h : ∃ d ∈ sections, isServiceDataType d.dataType = true <;>
      simp [stepServiceData, h, isServiceDataEvent]

lemma stepServices_snd_count_svc :
    ((stepServices s args).2).countP isServicesEvent
      = if ∃ u ∈ args.serviceUuids.getD [], u ∉ s.services then 1 else 0 := by
  rcases args with ⟨ln, md, ds, su, rssi⟩
  rcases su with _ | uuids
  · simp [stepServices]
  · by_cases h : ∃ x ∈ uuids, x ∉ s.services <;>
      simp [stepServices, h, List.countP_cons, isServicesEvent]

lemma stepServices_snd_count_mfg :
    ((stepServices s args).2).countP isMfgEvent = 0 := by
  rcases args with ⟨ln, md, ds, su, rssi⟩
  rcases su with _ | uuids
  · simp [stepServices]
  · by_cases h : ∃ x ∈ uuids, x ∉ s.services <;>
      simp [stepServices, h, List.countP_cons, isMfgEvent]

lemma stepServices_snd_count_sd :
    ((stepServices s args).2).countP isServiceDataEvent = 0 := by
  rcases args with ⟨ln, md, ds, su, rssi⟩
  rcases su with _ | uuids
  · simp [stepServices]
  · by_cases h : ∃ x ∈ uuids, x ∉ s.services <;>
      simp [stepServices, h, List.countP_cons, isServiceDataEvent]

lemma stepServices_snd_mem :
    ∀ e ∈ (stepServices s args).2, isServicesEvent e = true := by
  rcases args with ⟨ln, md, ds, su, rssi⟩
  rcases su with _ | uuids
  · simp [stepServices]
  · by_cases h : ∃ x ∈ uuids, x ∉ s.services <;>
      simp [stepServices, h, isServicesEvent]

end EventLemmas

/-! ## Claim theorems -/

/-- C1: for every sequence of advertisement reports processed for a fixed
peripheral, the stored `services` set afterwards equals the union of every
service-UUID list carried by any report in the sequence; it is
order-independent (invariant under permutation of the sequence) and never
loses an element once inserted (processing one more report only grows it). -/
theorem C1_services_union (addr : Nat) (rs rs2 : List AdvertisementReport)
    (h : rs.Perm rs2) :
    (applyReports (Peripheral.new addr) rs).services
        = (rs.map reportServiceSet).foldr (· ∪ ·) ∅
    ∧ (applyReports (Peripheral.new addr) rs).services
        = (applyReports (Peripheral.new addr) rs2).services
    ∧ ∀ r, (applyReports (Peripheral.new addr) rs).services
        ⊆ (applyReport (applyReports (Peripheral.new addr) rs) r).services := by
  refine ⟨?_, ?_, ?_⟩
  · rw [applyReports_services]
    simp [Peripheral.new]
  · rw [applyReports_services, applyReports_services,
      foldr_union_perm (h.map reportServiceSet)]
  · intro r
    rw [applyReport_services]
    exact Finset.subset_union_left

/-- Witness for C1 at a concrete pair of permuted two-report sequences. -/
theorem C1_services_union_witness :
    (applyReports (Peripheral.new 0) [svcReportA, svcReportB]).services
        = ([svcReportA, svcReportB].map reportServiceSet).foldr (· ∪ ·) ∅
    ∧ (applyReports (Peripheral.new 0) [svcReportA, svcReportB]).services
        = (applyReports (Peripheral.new 0) [svcReportB, svcReportA]).services
    ∧ ∀ r, (applyReports (Peripheral.new 0) [svcReportA, svcReportB]).services
        ⊆ (applyReport (applyReports (Peripheral.new 0)
            [svcReportA, svcReportB]) r).services :=
  C1_services_union 0 [svcReportA, svcReportB] [svcReportB, svcReportA]
    (List.Perm.swap svcReportB svcReportA [])

/-- C2 counterexample: a second report repeating the identical manufacturer
data leaves the stored map unchanged, yet a `ManufacturerDataAdvertisement`
event is still emitted — refuting "an event for a category is emitted only
when that category's stored value actually changed". -/
theorem C2_counterexample :
    (applyReport (applyReport (Peripheral.new 0) mfgReport)
        mfgReport).latest_manufacturer_data
      = (applyReport (Peripheral.new 0) mfgReport).latest_manufacturer_data
    ∧ ((updateProperties (applyReport (Peripheral.new 0) mfgReport)
        mfgReport).2).countP isMfgEvent = 1 := by
  constructor
  · rfl
  · rfl

/-- C2 amended: per report at most one event is emitted per category;
manufacturer-data and service-data events are emitted exactly when the
report carries that category (regardless of whether the stored value
changed), while a services event is emitted exactly when the report
carries a service UUID not already stored; no other event variant is
emitted by `update_properties`. -/
theorem C2_events_per_category (s : Shared) (r : AdvertisementReport) :
    ((updateProperties s r).2).countP isMfgEvent
        = (if r.manufacturerData.isSome then 1 else 0)
    ∧ ((updateProperties s r).2).countP isServiceDataEvent
        = (if ∃ d ∈ r.dataSections.getD [], isServiceDataType d.dataType
           then 1 else 0)
    ∧ ((updateProperties s r).2).countP isServicesEvent
        = (if ∃ u ∈ r.serviceUuids.getD [], u ∉ s.services then 1 else 0)
    ∧ ∀ e ∈ (updateProperties s r).2,
        isMfgEvent e = true ∨ isServiceDataEvent e = true
          ∨ isServicesEvent e = true := by
  refine ⟨?_, ?_, ?_, ?_⟩
  · rw [updateProperties_snd, List.countP_append, List.countP_append,
      stepMfg_snd_count_mfg, stepServiceData_snd_count_mfg,
      stepServices_snd_count_mfg]
    simp
  · rw [updateProperties_snd, List.countP_append, List.countP_append,
      stepMfg_snd_count_sd, stepServiceData_snd_count_sd,
      stepServices_snd_count_sd]
    simp
  · rw [updateProperties_snd, List.countP_append, List.countP_append,
      stepMfg_snd_count_svc, stepServiceData_snd_count_svc,
      stepServices_snd_count_svc]
    simp
  · intro e he
    rw [updateProperties_snd] at he
    rcases List.mem_append.mp he with he2 | he3
    · rcases List.mem_append.mp he2 with he4 | he5
      · exact Or.inl (stepMfg_snd_mem _ _ e he4)
      · exact Or.inr (Or.inl (stepServiceData_snd_mem _ _ e he5))
    · exact Or.inr (Or.inr (stepServices_snd_mem _ _ e he3))

/-- Witness for C2 at a concrete state and report. -/
theorem C2_events_per_category_witness :
    ((updateProperties (Peripheral.new 0) mfgReport).2).countP isMfgEvent
        = (if mfgReport.manufacturerData.isSome then 1 else 0)
    ∧ ((updateProperties (Peripheral.new 0) mfgReport).2).countP
          isServiceDataEvent
        = (if ∃ d ∈ mfgReport.dataSections.getD [],
              isServiceDataType d.dataType then 1 else 0)
    ∧ ((updateProperties (Peripheral.new 0) mfgReport).2).countP
          isServicesEvent
        = (if ∃ u ∈ mfgReport.serviceUuids.getD [],
              u ∉ (Peripheral.new 0).services then 1 else 0)
    ∧ ∀ e ∈ (updateProperties (Peripheral.new 0) mfgReport).2,
        isMfgEvent e = true ∨ isServiceDataEvent e = true
          ∨ isServicesEvent e = true :=
  C2_events_per_category (Peripheral.new 0) mfgReport

/-- C3 counterexample: after a report carrying a signal-strength reading,
processing a report that carries none clears the stored `tx_power_level`
to `none` instead of leaving it untouched. -/
theorem C3_counterexample :
    (applyReport (Peripheral.new 0) txReport).last_tx_power_level
        = some (-60)
    ∧ (applyReport (applyReport (Peripheral.new 0) txReport)
        emptyReport).last_tx_power_level = none := by
  constructor
  · rfl
  · rfl

/-- C3 amended: every processed report overwrites the stored
`tx_power_level` unconditionally — with the report's reading (cast to a
signed 8-bit value) when the report carries one, and with `none` (cleared,
not left untouched) when it does not. -/
theorem C3_tx_power_overwrite (s : Shared) (r : AdvertisementReport) :
    (applyReport s r).last_tx_power_level
      = r.rawSignalStrengthInDBm.map i8cast := by
  unfold applyReport updateProperties
  simp

/-- C4 counterexample: with no live connection (fresh peripheral, device
handle absent) and an undiscovered characteristic UUID, `write` returns
`NotSupported("write")`, not a NotConnected-class error — refuting "every
GATT operation invoked while the peripheral holds no live connection
returns a NotConnected-class error". -/
theorem C4_counterexample :
    (Peripheral.new 0).device = none
    ∧ Peripheral.write (Peripheral.new 0) 42
        = GattDispatch.failure (BtleError.NotSupported "write")
    ∧ Peripheral.write (Peripheral.new 0) 42
        ≠ GattDispatch.failure BtleError.NotConnected := by
  refine ⟨rfl, rfl, ?_⟩
  decide

/-- C4 amended: `write`, `read`, `subscribe` and `unsubscribe` return a
NotSupported-class error naming the attempted operation whenever the
characteristic UUID is not in the cache, and dispatch to the platform
transport whenever it is — in both cases regardless of connection state;
only `discover_characteristics` checks the connection, returning
NotConnected exactly when no device handle is held. -/
theorem C4_gatt_dispatch (s : Shared) (uuid : Nat) :
    (lookupKey s.ble_characteristics uuid = none →
        Peripheral.write s uuid
            = GattDispatch.failure (BtleError.NotSupported "write")
        ∧ Peripheral.read s uuid
            = GattDispatch.failure (BtleError.NotSupported "read")
        ∧ Peripheral.subscribe s uuid
            = GattDispatch.failure (BtleError.NotSupported "subscribe")
        ∧ Peripheral.unsubscribe s uuid
            = GattDispatch.failure (BtleError.NotSupported "unsubscribe"))
    ∧ (∀ c, lookupKey s.ble_characteristics uuid = some c →
        Peripheral.write s uuid = GattDispatch.transport
        ∧ Peripheral.read s uuid = GattDispatch.transport
        ∧ Peripheral.subscribe s uuid = GattDispatch.transport
        ∧ Peripheral.unsubscribe s uuid = GattDispatch.transport)
    ∧ (s.device = none →
        Peripheral.discover_characteristics s
          = GattDispatch.failure BtleError.NotConnected)
    ∧ (∀ d, s.device = some d →
        Peripheral.discover_characteristics s = GattDispatch.transport) := by
  refine ⟨fun h => ?_, fun c h => ?_, fun h => ?_, fun d h => ?_⟩
  · exact ⟨by simp [Peripheral.write, h], by simp [Peripheral.read, h],
      by simp [Peripheral.subscribe, h], by simp [Peripheral.unsubscribe, h]⟩
  · exact ⟨by simp [Peripheral.write, h], by simp [Peripheral.read, h],
      by simp [Peripheral.subscribe, h], by simp [Peripheral.unsubscribe, h]⟩
  · simp [Peripheral.discover_characteristics, h]
  · simp [Peripheral.discover_characteristics, h]

/-- Witness for C4 at a fresh peripheral and uncached UUID. -/
theorem C4_gatt_dispatch_witness :
    Peripheral.write (Peripheral.new 0) 42
        = GattDispatch.failure (BtleError.NotSupported "write")
    ∧ Peripheral.read (Peripheral.new 0) 42
        = GattDispatch.failure (BtleError.NotSupported "read")
    ∧ Peripheral.subscribe (Peripheral.new 0) 42
        = GattDispatch.failure (BtleError.NotSupported "subscribe")
    ∧ Peripheral.unsubscribe (Peripheral.new 0) 42
        = GattDispatch.failure (BtleError.NotSupported "unsubscribe") :=
  (C4_gatt_dispatch (Peripheral.new 0) 42).1 rfl

/-- C5: emitting `DeviceDisconnected(addr)` or `DeviceLost(addr)` removes
`addr` from the peripheral table (subsequent `peripheral`/`has_peripheral`
report absence), every emitted event is delivered (appended to the
single-consumer queue), and any other event variant leaves the table
unchanged. -/
theorem C5_emit_removes (P : Type) (m : AdapterManager P) (addr : Nat)
    (e : CentralEvent) :
    AdapterManager.peripheral
        (AdapterManager.emit m (CentralEvent.DeviceDisconnected addr)) addr
      = none
    ∧ AdapterManager.has_peripheral
        (AdapterManager.emit m (CentralEvent.DeviceDisconnected addr)) addr
      = false
    ∧ AdapterManager.peripheral
        (AdapterManager.emit m (CentralEvent.DeviceLost addr)) addr = none
    ∧ AdapterManager.has_peripheral
        (AdapterManager.emit m (CentralEvent.DeviceLost addr)) addr = false
    ∧ (AdapterManager.emit m e).eventQueue = m.eventQueue ++ [e]
    ∧ (isRemovalEvent e = false →
        (AdapterManager.emit m e).peripherals = m.peripherals) := by
  refine ⟨?_, ?_, ?_, ?_, ?_, ?_⟩
  · simp [AdapterManager.emit, AdapterManager.peripheral, lookupKey_removeKey]
  · simp [AdapterManager.emit, AdapterManager.has_peripheral, containsKey,
      lookupKey_removeKey]
  · simp [AdapterManager.emit, AdapterManager.peripheral, lookupKey_removeKey]
  · simp [AdapterManager.emit, AdapterManager.has_peripheral, containsKey,
      lookupKey_removeKey]
  · cases e <;> rfl
  · intro h
    cases e <;> first
      | rfl
      | exact absurd h (by simp [isRemovalEvent])

/-- Witness for C5 at a concrete one-entry registry. -/
theorem C5_emit_removes_witness :
    AdapterManager.peripheral
        (AdapterManager.emit sampleMgr (CentralEvent.DeviceDisconnected 3)) 3
      = none
    ∧ AdapterManager.has_peripheral
        (AdapterManager.emit sampleMgr (CentralEvent.DeviceLost 3)) 3 = false
    ∧ (AdapterManager.emit sampleMgr
        (CentralEvent.DeviceConnected 3)).peripherals
      = sampleMgr.peripherals :=
  ⟨(C5_emit_removes Nat sampleMgr 3 (CentralEvent.DeviceConnected 3)).1,
   (C5_emit_removes Nat sampleMgr 3 (CentralEvent.DeviceConnected 3)).2.2.2.1,
   (C5_emit_removes Nat sampleMgr 3
      (CentralEvent.DeviceConnected 3)).2.2.2.2.2 rfl⟩

/-- C6: `add_peripheral` panics (assertion failure, modelled as `none`)
when the address is already present or when the peripheral's own address
differs from the key; otherwise it inserts the peripheral under the key
and leaves every other entry, the event queue and the receiver untouched. -/
theorem C6_add_peripheral (P : Type) (addrOf : P → Nat)
    (m : AdapterManager P) (addr : Nat) (p : P) :
    (containsKey m.peripherals addr = true →
        AdapterManager.add_peripheral addrOf m addr p = none)
    ∧ (addrOf p ≠ addr →
        AdapterManager.add_peripheral addrOf m addr p = none)
    ∧ (containsKey m.peripherals addr = false → addrOf p = addr →
        ∃ m2, AdapterManager.add_peripheral addrOf m addr p = some m2
          ∧ AdapterManager.peripheral m2 addr = some p
          ∧ (∀ a, a ≠ addr →
              AdapterManager.peripheral m2 a = AdapterManager.peripheral m a)
          ∧ m2.eventQueue = m.eventQueue
          ∧ m2.eventReceiverPresent = m.eventReceiverPresent) := by
  refine ⟨fun h => ?_, fun h => ?_, fun h1 h2 => ?_⟩
  · simp [AdapterManager.add_peripheral, h]
  · simp [AdapterManager.add_peripheral, h]
  · refine ⟨{ m with peripherals := insertKey m.peripherals addr p },
      ?_, ?_, ?_, rfl, rfl⟩
    · simp [AdapterManager.add_peripheral, h1, h2]
    · simp [AdapterManager.peripheral, lookupKey_insertKey_self]
    · intro a ha
      simp [AdapterManager.peripheral, lookupKey_insertKey_ne _ _ _ _ ha]

/-- Witness for C6: inserting into an empty registry succeeds. -/
theorem C6_add_peripheral_witness :
    ∃ m2, AdapterManager.add_peripheral id (AdapterManager.new Nat) 5 5
        = some m2
      ∧ AdapterManager.peripheral m2 5 = some 5
      ∧ (∀ a, a ≠ 5 → AdapterManager.peripheral m2 a
          = AdapterManager.peripheral (AdapterManager.new Nat) a)
      ∧ m2.eventQueue = (AdapterManager.new Nat).eventQueue
      ∧ m2.eventReceiverPresent
          = (AdapterManager.new Nat).eventReceiverPresent :=
  (C6_add_peripheral Nat id (AdapterManager.new Nat) 5 5).2.2 rfl rfl

/-- C7: a report carrying no manufacturer data leaves the stored
`manufacturer_data` untouched (so after a first report that carried data
and a second that did not, the map equals the first report's); a report
that does carry manufacturer data replaces the stored map wholesale with
the report's collected entries. -/
theorem C7_manufacturer_data (s : Shared) (r1 r2 : AdvertisementReport)
    (h : r2.manufacturerData = none) :
    (applyReport (applyReport s r1) r2).latest_manufacturer_data
        = (applyReport s r1).latest_manufacturer_data
    ∧ ∀ entries, r1.manufacturerData = some entries →
        (applyReport s r1).latest_manufacturer_data = collectMap entries :=
  ⟨applyReport_mfg_none _ _ h,
   fun entries he => applyReport_mfg_some _ _ entries he⟩

/-- Witness for C7 at a concrete report pair. -/
theorem C7_manufacturer_data_witness :
    (applyReport (applyReport (Peripheral.new 0) mfgReport)
        emptyReport).latest_manufacturer_data
      = (applyReport (Peripheral.new 0) mfgReport).latest_manufacturer_data
    ∧ ∀ entries, mfgReport.manufacturerData = some entries →
        (applyReport (Peripheral.new 0) mfgReport).latest_manufacturer_data
          = collectMap entries :=
  C7_manufacturer_data (Peripheral.new 0) mfgReport emptyReport rfl

/-- C8 counterexample: the counter is a wrapping `u32`, so after exactly
`2 ^ 32` reports `discovery_count` is `0`, not the sequence length. -/
theorem C8_counterexample :
    ¬ ((applyReports (Peripheral.new 0)
          (List.replicate (2 ^ 32) emptyReport)).discovery_count
        = (List.replicate (2 ^ 32) emptyReport).length) := by
  have h0 : (Peripheral.new 0).discovery_count = 0 := rfl
  have h := applyReports_count (List.replicate (2 ^ 32) emptyReport)
    (Peripheral.new 0) (by rw [h0]; exact Nat.pos_pow_of_pos 32 (by norm_num))
  have hlen : (List.replicate (2 ^ 32) emptyReport).length = 2 ^ 32 :=
    List.length_replicate _ _
  intro hc
  rw [h, hlen, h0, Nat.zero_add, Nat.mod_self] at hc
  exact absurd hc (by norm_num)

/-- C8 amended: starting from the freshly created state, after `N` reports
`discovery_count` equals `N` modulo `2 ^ 32` regardless of their contents;
in particular it equals `N` whenever `N < 2 ^ 32`. -/
theorem C8_discovery_count (addr : Nat) (rs : List AdvertisementReport) :
    (applyReports (Peripheral.new addr) rs).discovery_count
        = rs.length % 2 ^ 32
    ∧ (rs.length < 2 ^ 32 →
        (applyReports (Peripheral.new addr) rs).discovery_count
          = rs.length) := by
  have h := applyReports_count rs (Peripheral.new addr)
    (by norm_num [Peripheral.new])
  have h0 : (Peripheral.new addr).discovery_count = 0 := rfl
  rw [h0, Nat.zero_add] at h
  exact ⟨h, fun hlt => by rw [h, Nat.mod_eq_of_lt hlt]⟩

/-- Witness for C8 on a concrete two-report sequence. -/
theorem C8_discovery_count_witness :
    (applyReports (Peripheral.new 0)
        [emptyReport, emptyReport]).discovery_count
      = ([emptyReport, emptyReport] : List AdvertisementReport).length % 2 ^ 32
    ∧ (applyReports (Peripheral.new 0)
        [emptyReport, emptyReport]).discovery_count
      = ([emptyReport, emptyReport] : List AdvertisementReport).length :=
  ⟨(C8_discovery_count 0 [emptyReport, emptyReport]).1,
   (C8_discovery_count 0 [emptyReport, emptyReport]).2 (by norm_num)⟩

/-- C9: the first `event_receiver()` call on a fresh registry yields the
single ordered sink; after any call has taken it, every subsequent call
(on the shared state, which clones share) yields `none`, and no registry
operation (`emit`, successful `add_peripheral`) restores it. -/
theorem C9_event_receiver_once (m : AdapterManager Nat) :
    (AdapterManager.event_receiver (AdapterManager.new Nat)).1 = some ()
    ∧ (AdapterManager.event_receiver
        (AdapterManager.event_receiver m).2).1 = none
    ∧ (∀ e, (AdapterManager.emit m e).eventReceiverPresent
        = m.eventReceiverPresent)
    ∧ (∀ (addrOf : Nat → Nat) addr p m2,
        AdapterManager.add_peripheral addrOf m addr p = some m2 →
          m2.eventReceiverPresent = m.eventReceiverPresent) := by
  refine ⟨rfl, ?_, ?_, ?_⟩
  · by_cases h : m.eventReceiverPresent <;>
      simp [AdapterManager.event_receiver, h]
  · intro e
    cases e <;> rfl
  · intro addrOf addr p m2 h
    by_cases h1 : containsKey m.peripherals addr
    · simp [AdapterManager.add_peripheral, h1] at h
    · by_cases h2 : addrOf p = addr
      · simp [AdapterManager.add_peripheral, h1, h2] at h
        rw [← h]
      · simp [AdapterManager.add_peripheral, h1, h2] at h

/-- Witness for C9 on a fresh registry. -/
theorem C9_event_receiver_once_witness :
    (AdapterManager.event_receiver (AdapterManager.new Nat)).1 = some ()
    ∧ (AdapterManager.event_receiver
        (AdapterManager.event_receiver (AdapterManager.new Nat)).2).1
      = none :=
  ⟨(C9_event_receiver_once (AdapterManager.new Nat)).1,
   (C9_event_receiver_once (AdapterManager.new Nat)).2.1⟩

/-- C10: on this platform `address_type()` returns `none` in every state,
so the `address_type` field of every `properties()` snapshot derived by
`derive_properties_compat` is permanently absent. -/
theorem C10_address_type_absent (s : Shared) :
    Peripheral.address_type s = none
    ∧ (Peripheral.derive_properties_compat s).address_type = none :=
  ⟨rfl, rfl⟩

end Btleplug
